import Mathlib

/-!
# Verification of the sinain-hud sensing-and-gating pipeline

Shallow embedding of the `sense_client` core (decision gate, ROI extraction,
OCR wrapper, app detector) with proofs of the specified properties.

Timestamps (`time.time() * 1000`) and similarity scores are modelled as `ℚ`;
Python's arbitrary-precision integers as `Int`.  The MD5 content fingerprint
(`hashlib.md5(...).hexdigest()`, an external library call) is modelled as an
explicit function parameter `fp : String → String`: every theorem below is
proved for an arbitrary fingerprint function, hence in particular for MD5.
-/

namespace SenseClient

/-- `OCRResult` from `sense_client/ocr.py`: extracted text, confidence, word
count.  `confidence` is a Python float (an average of integers), modelled
exactly as `ℚ`. -/
structure OCRResult where
  text : String
  confidence : ℚ
  word_count : Nat
deriving DecidableEq, Repr

/-- `ChangeResult` from `sense_client/change_detector.py` as consumed by the
gate and the tests: similarity score, optional diff image (opaque), contour
point lists (numpy `(row, col)` i.e. `(y, x)` coordinates), overall bbox. -/
structure ChangeResult where
  ssim_score : ℚ
  diff_image : Option Unit := none
  contours : List (List (Int × Int)) := []
  bbox : Int × Int × Int × Int := (0, 0, 0, 0)
deriving DecidableEq, Repr

/-- `SenseMeta` from `sense_client/gate.py`. -/
structure SenseMeta where
  ssim : ℚ := 0
  app : String := ""
  screen : Int := 0
deriving DecidableEq, Repr

/-- `SenseEvent` from `sense_client/gate.py`.  `roi` and `diff` are optional
dict payloads never touched by the gate; modelled opaquely. -/
structure SenseEvent where
  type : String
  ts : ℚ := 0
  ocr : String := ""
  roi : Option Unit := none
  diff : Option Unit := none
  meta : SenseMeta := {}
deriving DecidableEq, Repr

/-- Configuration of `DecisionGate` (`sense_client/gate.py`, `__init__`). -/
structure DecisionGate where
  min_ocr_chars : Int := 10
  major_change_threshold : ℚ := 85 / 100
  cooldown_ms : ℚ := 2000
deriving DecidableEq, Repr

/-- Mutable state of `DecisionGate` (`last_send_ts`, `last_ocr_hash`),
initialised to `0` and `""` in `__init__`. -/
structure GateState where
  last_send_ts : ℚ := 0
  last_ocr_hash : String := ""
deriving DecidableEq, Repr

/-- `DecisionGate.classify` from `sense_client/gate.py`.  `now` is the sampled
clock (`time.time() * 1000`), passed explicitly; `fp` models
`hashlib.md5(text.encode()).hexdigest()`.  Returns the emitted event (or
`none` to drop) together with the updated gate state. -/
def classify (fp : String → String) (g : DecisionGate) (s : GateState) (now : ℚ)
    (change : Option ChangeResult) (ocr : OCRResult) (app_changed : Bool) :
    Option SenseEvent × GateState :=
  -- Cooldown check
  if now - s.last_send_ts < g.cooldown_ms then (none, s)
  -- App switch -> context event
  else if app_changed then
    (some { type := "context", ts := now }, { s with last_send_ts := now })
  else
    match change with
    | none => (none, s)
    | some c =>
      -- OCR text sufficient -> text event
      if ocr.text ≠ "" ∧ g.min_ocr_chars ≤ (ocr.text.length : Int) then
        -- text_hash = hashlib.md5(ocr.text.encode()).hexdigest(), modelled by fp
        if fp ocr.text = s.last_ocr_hash then (none, s)  -- dedup
        else (some { type := "text", ts := now, ocr := ocr.text,
                     meta := { ssim := c.ssim_score } },
              { s with last_ocr_hash := fp ocr.text, last_send_ts := now })
      -- Major visual change -> visual event
      else if c.ssim_score < g.major_change_threshold then
        (some { type := "visual", ts := now, ocr := ocr.text,
                meta := { ssim := c.ssim_score } },
         { s with last_send_ts := now })
      else (none, s)

/-- One tick's transient inputs to the gate: the sampled clock, the change
result, the OCR result and the app-switch flag. -/
structure TickInput where
  now : ℚ
  change : Option ChangeResult
  ocr : OCRResult
  app_changed : Bool
deriving Repr

/-- Run the gate over a sequence of ticks, threading the mutable state and
collecting the emitted events in order. -/
def runGate (fp : String → String) (g : DecisionGate) :
    GateState → List TickInput → List SenseEvent
  | _, [] => []
  | s, i :: is =>
    (classify fp g s i.now i.change i.ocr i.app_changed).1.toList ++
      runGate fp g (classify fp g s i.now i.change i.ocr i.app_changed).2 is

/-- Characterisation of one `classify` call: either it drops and leaves the
state untouched, or it emits an event stamped `now`, with the cooldown having
elapsed, `last_send_ts` set to `now`, and `last_ocr_hash` updated to the text's
fingerprint exactly when the event is a `text` event. -/
theorem classify_spec (fp : String → String) (g : DecisionGate) (s : GateState)
    (now : ℚ) (change : Option ChangeResult) (ocr : OCRResult) (app_changed : Bool) :
    ((classify fp g s now change ocr app_changed).1 = none ∧
      (classify fp g s now change ocr app_changed).2 = s) ∨
    (∃ ev, (classify fp g s now change ocr app_changed).1 = some ev ∧
      ev.ts = now ∧ g.cooldown_ms ≤ now - s.last_send_ts ∧
      (classify fp g s now change ocr app_changed).2.last_send_ts = now ∧
      ((ev.type = "text" ∧ ev.ocr = ocr.text ∧ fp ocr.text ≠ s.last_ocr_hash ∧
          (classify fp g s now change ocr app_changed).2.last_ocr_hash = fp ocr.text) ∨
        (ev.type ≠ "text" ∧
          (classify fp g s now change ocr app_changed).2.last_ocr_hash = s.last_ocr_hash))) := by
  unfold classify
  rcases change with _ | c <;> dsimp only
  · split_ifs with h1 h2
    · exact .inl ⟨rfl, rfl⟩
    · exact .inr ⟨_, rfl, rfl, not_lt.mp h1, rfl, .inr ⟨by simp, rfl⟩⟩
    · exact .inl ⟨rfl, rfl⟩
  · split_ifs with h1 h2 h3 h4 h5
    · exact .inl ⟨rfl, rfl⟩
    · exact .inr ⟨_, rfl, rfl, not_lt.mp h1, rfl, .inr ⟨by simp, rfl⟩⟩
    · exact .inl ⟨rfl, rfl⟩
    · exact .inr ⟨_, rfl, rfl, not_lt.mp h1, rfl, .inl ⟨rfl, rfl, h4, rfl⟩⟩
    · exact .inr ⟨_, rfl, rfl, not_lt.mp h1, rfl, .inr ⟨by simp, rfl⟩⟩
    · exact .inl ⟨rfl, rfl⟩

/-- C7: a `ChangeResult` with `ssim_score = 1.0` (and empty contours) together
with OCR text shorter than `min_ocr_chars` produces no event, given that the
cooldown has elapsed, `app_changed` is false, and the configured
`major_change_threshold` is a genuine similarity threshold (≤ 1). -/
theorem classify_identical_frame_no_event (fp : String → String) (g : DecisionGate)
    (s : GateState) (now : ℚ) (c : ChangeResult) (ocr : OCRResult)
    (hcool : g.cooldown_ms ≤ now - s.last_send_ts)
    (hssim : c.ssim_score = 1) (hcont : c.contours = [])
    (hshort : (ocr.text.length : Int) < g.min_ocr_chars)
    (hthr : g.major_change_threshold ≤ 1) :
    classify fp g s now (some c) ocr false = (none, s) := by
  unfold classify
  dsimp only
  split_ifs with h1 h2 h3 h4 h5
  · rfl
  · exact absurd h2 (by simp)
  · rfl
  · exact absurd h3.2 (not_le.mpr hshort)
  · exfalso; rw [hssim] at h5; linarith
  · rfl

/-- Concrete witness for `classify_identical_frame_no_event`: an identical
frame (`ssim = 1`, no contours) with 2-character OCR text at `now = 5000`
against the default gate is dropped. -/
theorem classify_identical_frame_no_event_witness :
    classify (fun t => t) {} {} 5000 (some { ssim_score := 1 })
      { text := "hi", confidence := 0, word_count := 1 } false = (none, {}) :=
  classify_identical_frame_no_event (fun t => t) {} {} 5000 { ssim_score := 1 }
    { text := "hi", confidence := 0, word_count := 1 }
    (by norm_num) rfl rfl (by decide) (by norm_num)

/-- C8: `classify` updates its persistent state atomically with the decision
to emit.  A dropped call leaves the state exactly as it was; an emitted event
is stamped `now` with `last_send_ts` set to `now` in the same call, and
`last_ocr_hash` is rewritten (to the emitted text's fingerprint) exactly for
`text` events, untouched otherwise. -/
theorem classify_state_atomic (fp : String → String) (g : DecisionGate)
    (s : GateState) (now : ℚ) (change : Option ChangeResult) (ocr : OCRResult)
    (app_changed : Bool) :
    ((classify fp g s now change ocr app_changed).1 = none →
       (classify fp g s now change ocr app_changed).2 = s) ∧
    (∀ ev, (classify fp g s now change ocr app_changed).1 = some ev →
       (classify fp g s now change ocr app_changed).2.last_send_ts = now ∧
       ev.ts = now ∧
       (ev.type = "text" →
         (classify fp g s now change ocr app_changed).2.last_ocr_hash = fp ocr.text) ∧
       (ev.type ≠ "text" →
         (classify fp g s now change ocr app_changed).2.last_ocr_hash = s.last_ocr_hash)) := by
  rcases classify_spec fp g s now change ocr app_changed with ⟨h1, h2⟩ |
    ⟨ev, hev, hts, _, hsend, hrest⟩
  · refine ⟨fun _ => h2, fun ev hev => ?_⟩
    rw [h1] at hev; cases hev
  · constructor
    · intro hnone; rw [hev] at hnone; cases hnone
    · intro ev' hev'
      rw [hev] at hev'
      injection hev' with he
      subst he
      refine ⟨hsend, hts, ?_, ?_⟩
      · intro htext
        rcases hrest with ⟨_, _, _, hh⟩ | ⟨hnt, _⟩
        · exact hh
        · exact absurd htext hnt
      · intro hnt
        rcases hrest with ⟨ht, _, _, _⟩ | ⟨_, hh⟩
        · exact absurd ht hnt
        · exact hh

/-- Concrete witness for `classify_state_atomic`: a call dropped by the
cooldown (`now = 1000 < cooldown 2000`) leaves the default state unchanged. -/
theorem classify_state_atomic_witness :
    (classify (fun t => t) {} {} 1000 none
      { text := "", confidence := 0, word_count := 0 } false).2 = {} :=
  (classify_state_atomic (fun t => t) {} {} 1000 none
      { text := "", confidence := 0, word_count := 0 } false).1 (by norm_num [classify])

/-- Along any run of the gate, the first emitted `text` event's fingerprint
differs from the incoming `last_ocr_hash`, and consecutive emitted `text`
events have distinct fingerprints. -/
theorem runGate_dedup_inv (fp : String → String) (g : DecisionGate) :
    ∀ (ins : List TickInput) (s : GateState),
    (∀ e, ((runGate fp g s ins).filter (fun ev => ev.type == "text")).head? = some e →
        fp e.ocr ≠ s.last_ocr_hash) ∧
      List.Chain' (fun a b => fp b.ocr ≠ fp a.ocr)
        ((runGate fp g s ins).filter (fun ev => ev.type == "text")) := by
  intro ins
  induction ins with
  | nil => intro s; simp [runGate]
  | cons i is ih =>
    intro s
    rcases classify_spec fp g s i.now i.change i.ocr i.app_changed with ⟨h1, h2⟩ |
      ⟨ev, hev, hts, hcool, hsend, hrest⟩
    · simp only [runGate, h1, Option.toList_none, List.nil_append, h2]
      exact ih s
    · rcases hrest with ⟨htype, hocr, hne, hhash⟩ | ⟨htype, hhash⟩
      · -- a text event is emitted
        have hb : (ev.type == "text") = true := by simp [htype]
        simp only [runGate, hev, Option.toList_some, List.cons_append, List.nil_append]
        rw [List.filter_cons_of_pos (p := fun e => e.type == "text") (a := ev) hb]
        constructor
        · intro e he
          rw [List.head?_cons] at he
          injection he with he
          subst he
          rw [hocr]
          exact hne
        · rw [List.chain'_cons']
          refine ⟨?_, (ih _).2⟩
          intro b hb
          have hfirst := (ih ((classify fp g s i.now i.change i.ocr i.app_changed).2)).1 b
            (Option.mem_def.mp hb)
          rw [hhash] at hfirst
          rw [hocr]
          exact hfirst
      · -- a non-text event is emitted: the filter skips it, the hash is kept
        have hb : ¬ ((ev.type == "text") = true) := by simp [htype]
        simp only [runGate, hev, Option.toList_some, List.cons_append, List.nil_append]
        rw [List.filter_cons_of_neg (p := fun e => e.type == "text") (a := ev) hb, ← hhash]
        exact ih _

/-- C3: the gate never lets two consecutive `text` events carry identical
content fingerprints.  First conjunct: a call that qualifies for a `text`
event (cooldown elapsed, no app switch, change present, text long enough) but
whose fingerprint equals `last_ocr_hash` returns no event and leaves the state
untouched, regardless of the elapsed time.  Second conjunct: on any run,
consecutively emitted `text` events have distinct fingerprints. -/
theorem text_event_dedup (fp : String → String) (g : DecisionGate) :
    (∀ (s : GateState) (now : ℚ) (c : ChangeResult) (ocr : OCRResult),
      g.cooldown_ms ≤ now - s.last_send_ts →
      ocr.text ≠ "" → g.min_ocr_chars ≤ (ocr.text.length : Int) →
      fp ocr.text = s.last_ocr_hash →
      classify fp g s now (some c) ocr false = (none, s)) ∧
    (∀ (s : GateState) (ins : List TickInput),
      List.Chain' (fun a b => fp b.ocr ≠ fp a.ocr)
        ((runGate fp g s ins).filter (fun ev => ev.type == "text"))) := by
  constructor
  · intro s now c ocr hcool hne hlen hdup
    unfold classify
    dsimp only
    split_ifs with h1 h2 h3 h4 <;>
      first
        | rfl
        | exact h2.elim
        | exact (h3 ⟨hne, hlen⟩).elim
  · intro s ins
    exact (runGate_dedup_inv fp g ins s).2

/-- Concrete witness for `text_event_dedup`: with the identity fingerprint, a
qualifying call whose 15-character OCR text equals the stored hash (sent
3 seconds after the previous event, past the 2-second cooldown) is dropped
with the state unchanged; and a concrete two-tick run emits a `text`-filtered
stream satisfying the dedup chain. -/
theorem text_event_dedup_witness :
    classify (fun t => t) {} { last_send_ts := 0, last_ocr_hash := "duplicate text!" }
        3000 (some { ssim_score := 9/10 })
        { text := "duplicate text!", confidence := 90, word_count := 2 } false =
      (none, { last_send_ts := 0, last_ocr_hash := "duplicate text!" }) ∧
    List.Chain' (fun a b => (fun t => t) b.ocr ≠ (fun t => t) a.ocr)
      ((runGate (fun t => t) {} {}
        [{ now := 3000, change := some { ssim_score := 9/10 },
           ocr := { text := "duplicate text!", confidence := 90, word_count := 2 },
           app_changed := false }]).filter (fun ev => ev.type == "text")) :=
  ⟨(text_event_dedup (fun t => t) {}).1
      { last_send_ts := 0, last_ocr_hash := "duplicate text!" } 3000
      { ssim_score := 9/10 }
      { text := "duplicate text!", confidence := 90, word_count := 2 }
      (by norm_num) (by decide) (by decide) rfl,
    (text_event_dedup (fun t => t) {}).2 {} _⟩

/-- Along any run of the gate, the first emitted event comes at least one
cooldown after the incoming `last_send_ts`, and consecutive emitted events are
at least one cooldown apart. -/
theorem runGate_cooldown_inv (fp : String → String) (g : DecisionGate) :
    ∀ (ins : List TickInput) (s : GateState),
    (∀ e, (runGate fp g s ins).head? = some e →
        g.cooldown_ms ≤ e.ts - s.last_send_ts) ∧
      List.Chain' (fun a b => g.cooldown_ms ≤ b.ts - a.ts) (runGate fp g s ins) := by
  intro ins
  induction ins with
  | nil => intro s; simp [runGate]
  | cons i is ih =>
    intro s
    rcases classify_spec fp g s i.now i.change i.ocr i.app_changed with ⟨h1, h2⟩ |
      ⟨ev, hev, hts, hcool, hsend, _⟩
    · simp only [runGate, h1, Option.toList_none, List.nil_append, h2]
      exact ih s
    · simp only [runGate, hev, Option.toList_some, List.cons_append, List.nil_append]
      constructor
      · intro e he
        rw [List.head?_cons] at he
        injection he with he
        subst he
        rw [hts]
        exact hcool
      · rw [List.chain'_cons']
        refine ⟨?_, (ih _).2⟩
        intro b hb
        have hfirst := (ih ((classify fp g s i.now i.change i.ocr i.app_changed).2)).1 b
          (Option.mem_def.mp hb)
        rw [hsend] at hfirst
        rw [hts]
        exact hfirst

/-- C4: any two consecutively emitted non-`context` events (in particular with
no intervening app switch) are separated by at least `cooldown_ms`:
`second.ts - first.ts ≥ cooldown_ms`. -/
theorem consecutive_events_cooldown (fp : String → String) (g : DecisionGate)
    (s : GateState) (ins : List TickInput) :
    List.Chain' (fun a b => a.type ≠ "context" → b.type ≠ "context" →
      g.cooldown_ms ≤ b.ts - a.ts) (runGate fp g s ins) :=
  List.Chain'.imp (fun _ _ h _ _ => h) (runGate_cooldown_inv fp g ins s).2

/-- Concrete witness for `consecutive_events_cooldown`: a three-tick run of the
default gate (events at 2000 and 5000, one drop in between) satisfies the
cooldown chain. -/
theorem consecutive_events_cooldown_witness :
    List.Chain' (fun a b => a.type ≠ "context" → b.type ≠ "context" →
      DecisionGate.cooldown_ms {} ≤ b.ts - a.ts)
      (runGate (fun t => t) {} {}
        [{ now := 2000, change := some { ssim_score := 1/2 },
           ocr := { text := "", confidence := 0, word_count := 0 },
           app_changed := false },
         { now := 3000, change := some { ssim_score := 1/2 },
           ocr := { text := "", confidence := 0, word_count := 0 },
           app_changed := false },
         { now := 5000, change := some { ssim_score := 1/2 },
           ocr := { text := "", confidence := 0, word_count := 0 },
           app_changed := false }]) :=
  consecutive_events_cooldown (fun t => t) {} {} _

/-! ## ROI extraction (`sense_client/roi_extractor.py`) -/

/-- A working bounding box `(x1, y1, x2, y2)` as used inside
`ROIExtractor.extract` and `_merge_boxes`. -/
structure Box where
  x1 : Int
  y1 : Int
  x2 : Int
  y2 : Int
deriving DecidableEq, Repr

/-- `ROI` from `sense_client/roi_extractor.py`: the crop rectangle passed to
`frame.crop((x1, y1, x2, y2))` (standing in for the cropped image) and the
bounding box `(x, y, w, h)` in the parent frame's coordinate space. -/
structure ROI where
  crop : Int × Int × Int × Int
  bbox : Int × Int × Int × Int
deriving DecidableEq, Repr

/-- Configuration of `ROIExtractor` (`__init__`). -/
structure ROIExtractor where
  padding : Int := 20
  min_size : Int × Int := (64, 64)
  max_rois : Nat := 3
deriving Repr

/-- Bounding box of one contour: `arr.min(axis=0)`/`arr.max(axis=0)` over the
contour's `(y, x)` coordinate rows, giving `(min_x, min_y, max_x, max_y)`.
`np.array([]).min()` raises on an empty coordinate list, hence `none`. -/
def contourBox : List (Int × Int) → Option Box
  | [] => none
  | p :: ps =>
    some { x1 := (ps.map Prod.snd).foldl min p.2
           y1 := (ps.map Prod.fst).foldl min p.1
           x2 := (ps.map Prod.snd).foldl max p.2
           y2 := (ps.map Prod.fst).foldl max p.1 }

/-- Stable insertion for `sorted(boxes, key=lambda b: b[0])`. -/
def insertByX1 (b : Box) : List Box → List Box
  | [] => [b]
  | c :: cs => if b.x1 ≤ c.x1 then b :: c :: cs else c :: insertByX1 b cs

/-- Python's stable `sorted(boxes, key=lambda b: b[0])`. -/
def sortByX1 : List Box → List Box
  | [] => []
  | b :: bs => insertByX1 b (sortByX1 bs)

/-- Box area `(b[2] - b[0]) * (b[3] - b[1])`, the sort key of the final
`merged.sort(..., reverse=True)`. -/
def boxArea (b : Box) : Int := (b.x2 - b.x1) * (b.y2 - b.y1)

/-- Stable insertion for `merged.sort(key=area, reverse=True)`. -/
def insertByAreaDesc (b : Box) : List Box → List Box
  | [] => [b]
  | c :: cs => if boxArea c ≤ boxArea b then b :: c :: cs else c :: insertByAreaDesc b cs

/-- Python's stable `merged.sort(key=lambda b: (b[2]-b[0])*(b[3]-b[1]), reverse=True)`. -/
def sortByAreaDesc : List Box → List Box
  | [] => []
  | b :: bs => insertByAreaDesc b (sortByAreaDesc bs)

/-- The sweep of `_merge_boxes`: walk the x-sorted boxes, merging each into the
most recently accumulated box (`merged[-1]`) when it is within `padding`
horizontally and overlaps vertically within `padding`, else start a new
accumulated box. -/
def mergeAccum (pad : Int) : Box → List Box → List Box → List Box
  | last, acc, [] => acc ++ [last]
  | last, acc, b :: bs =>
    if b.x1 ≤ last.x2 + pad ∧ b.y1 ≤ last.y2 + pad ∧ last.y1 - pad ≤ b.y2 then
      mergeAccum pad { x1 := min last.x1 b.x1, y1 := min last.y1 b.y1,
                       x2 := max last.x2 b.x2, y2 := max last.y2 b.y2 } acc bs
    else
      mergeAccum pad b (acc ++ [last]) bs

/-- `ROIExtractor._merge_boxes`: sort by `x1`, sweep-merge, then sort the
merged boxes by area descending. -/
def mergeBoxes (pad : Int) (boxes : List Box) : List Box :=
  match sortByX1 boxes with
  | [] => []
  | b :: bs => sortByAreaDesc (mergeAccum pad b [] bs)

/-- The per-box tail of `ROIExtractor.extract`: expand by `padding`, clamp to
the frame, and keep the crop only if it meets `min_size`. -/
def padClamp (e : ROIExtractor) (frameW frameH : Int) (b : Box) : Option ROI :=
  let x1 := max 0 (b.x1 - e.padding)
  let y1 := max 0 (b.y1 - e.padding)
  let x2 := min frameW (b.x2 + e.padding)
  let y2 := min frameH (b.y2 + e.padding)
  let w := x2 - x1
  let h := y2 - y1
  if w < e.min_size.1 ∨ h < e.min_size.2 then none
  else some { crop := (x1, y1, x2, y2), bbox := (x1, y1, w, h) }

/-- `ROIExtractor.extract`: bounding boxes of the contours, merge, cap at
`max_rois`, pad/clamp/filter.  `none` models the `ValueError` raised by
`np.array([]).min()` on an empty contour coordinate list. -/
def extract (e : ROIExtractor) (frameW frameH : Int)
    (contours : List (List (Int × Int))) : Option (List ROI) :=
  if contours = [] then some []
  else
    match contours.mapM contourBox with
    | none => none
    | some boxes =>
      some (((mergeBoxes e.padding boxes).take e.max_rois).filterMap
        (padClamp e frameW frameH))

/-- Every ROI surviving `padClamp` meets `min_size` and lies inside the
frame. -/
theorem padClamp_props (e : ROIExtractor) (fw fh : Int) (b : Box) (r : ROI)
    (h : padClamp e fw fh b = some r) :
    ∃ x y w ht, r.bbox = (x, y, w, ht) ∧ e.min_size.1 ≤ w ∧ e.min_size.2 ≤ ht ∧
      0 ≤ x ∧ 0 ≤ y ∧ x + w ≤ fw ∧ y + ht ≤ fh := by
  unfold padClamp at h
  dsimp only at h
  split_ifs at h with hs
  injection h with h
  subst h
  push_neg at hs
  refine ⟨_, _, _, _, rfl, hs.1, hs.2, ?_, ?_, ?_, ?_⟩ <;> omega

/-- C5: `extract` returns at most `max_rois` ROIs, each at least `min_size`
after padding and clamping, with every bounding box `(x, y, w, h)` lying
entirely inside the parent frame. -/
theorem roi_extract_invariants (e : ROIExtractor) (frameW frameH : Int)
    (contours : List (List (Int × Int))) (rois : List ROI)
    (hx : extract e frameW frameH contours = some rois) :
    rois.length ≤ e.max_rois ∧
    ∀ r ∈ rois, ∃ x y w h, r.bbox = (x, y, w, h) ∧
      e.min_size.1 ≤ w ∧ e.min_size.2 ≤ h ∧
      0 ≤ x ∧ 0 ≤ y ∧ x + w ≤ frameW ∧ y + h ≤ frameH := by
  by_cases hc : contours = []
  · rw [extract, if_pos hc] at hx
    injection hx with hx
    subst hx
    exact ⟨Nat.zero_le _, by simp⟩
  · rw [extract, if_neg hc] at hx
    rcases hm : contours.mapM contourBox with _ | boxes
    · rw [hm] at hx; cases hx
    · rw [hm] at hx
      dsimp only at hx
      injection hx with hx
      subst hx
      constructor
      · calc (((mergeBoxes e.padding boxes).take e.max_rois).filterMap
              (padClamp e frameW frameH)).length
            ≤ ((mergeBoxes e.padding boxes).take e.max_rois).length :=
              List.length_filterMap_le _ _
          _ ≤ e.max_rois := by
              rw [List.length_take]; exact min_le_left _ _
      · intro r hr
        rcases List.mem_filterMap.mp hr with ⟨b, _, hfb⟩
        exact padClamp_props e frameW frameH b r hfb

/-- Concrete witness for `roi_extract_invariants`: one contour spanning
`(0,0)`–`(99,99)` on a 200×200 frame yields a single padded/clamped ROI
satisfying all invariants. -/
theorem roi_extract_invariants_witness :
    ([{ crop := (0, 0, 119, 119), bbox := (0, 0, 119, 119) }] : List ROI).length ≤
        ROIExtractor.max_rois {} ∧
    ∀ r ∈ ([{ crop := (0, 0, 119, 119), bbox := (0, 0, 119, 119) }] : List ROI),
      ∃ x y w h, r.bbox = (x, y, w, h) ∧
        (ROIExtractor.min_size {}).1 ≤ w ∧ (ROIExtractor.min_size {}).2 ≤ h ∧
        0 ≤ x ∧ 0 ≤ y ∧ x + w ≤ 200 ∧ y + h ≤ 200 :=
  roi_extract_invariants {} 200 200 [[(0, 0), (99, 99)]]
    [{ crop := (0, 0, 119, 119), bbox := (0, 0, 119, 119) }] (by decide)

/-- C6: two boxes (ordered by left edge) whose horizontal gap is at most
`padding` and whose vertical extents overlap within `padding` are merged by
`_merge_boxes` into exactly one box, the element-wise min of the top-left
corners and max of the bottom-right corners. -/
theorem merge_boxes_pair (pad : Int) (b1 b2 : Box)
    (hx : b1.x1 ≤ b2.x1)
    (hgap : b2.x1 ≤ b1.x2 + pad)
    (hv1 : b2.y1 ≤ b1.y2 + pad)
    (hv2 : b1.y1 - pad ≤ b2.y2) :
    mergeBoxes pad [b1, b2] =
      [{ x1 := min b1.x1 b2.x1, y1 := min b1.y1 b2.y1,
         x2 := max b1.x2 b2.x2, y2 := max b1.y2 b2.y2 }] := by
  have hstep : mergeAccum pad b1 [] [b2] =
      mergeAccum pad { x1 := min b1.x1 b2.x1, y1 := min b1.y1 b2.y1,
                       x2 := max b1.x2 b2.x2, y2 := max b1.y2 b2.y2 } [] [] := by
    show (if b2.x1 ≤ b1.x2 + pad ∧ b2.y1 ≤ b1.y2 + pad ∧ b1.y1 - pad ≤ b2.y2 then _ else _) = _
    rw [if_pos ⟨hgap, hv1, hv2⟩]
  have hsort : sortByX1 [b1, b2] = [b1, b2] := by
    show insertByX1 b1 [b2] = [b1, b2]
    show (if b1.x1 ≤ b2.x1 then _ else _) = _
    rw [if_pos hx]
  unfold mergeBoxes
  rw [hsort]
  show sortByAreaDesc (mergeAccum pad b1 [] [b2]) = _
  rw [hstep]
  rfl

/-- Concrete witness for `merge_boxes_pair`: boxes `(0,0,10,10)` and
`(15,2,30,8)` with padding 20 merge into `(0,0,30,10)`. -/
theorem merge_boxes_pair_witness :
    mergeBoxes 20 [{ x1 := 0, y1 := 0, x2 := 10, y2 := 10 },
                   { x1 := 15, y1 := 2, x2 := 30, y2 := 8 }] =
      [{ x1 := min 0 15, y1 := min 0 2, x2 := max 10 30, y2 := max 10 8 }] :=
  merge_boxes_pair 20 { x1 := 0, y1 := 0, x2 := 10, y2 := 10 }
    { x1 := 15, y1 := 2, x2 := 30, y2 := 8 }
    (by decide) (by decide) (by decide) (by decide)

/-! ## Local OCR (`sense_client/ocr.py`) -/

/-- Configuration of `LocalOCR` (`__init__`). -/
structure LocalOCR where
  lang : String := "eng"
  psm : Int := 11
  min_confidence : Int := 30
  enabled : Bool := true
deriving Repr

/-- The data dict returned by `pytesseract.image_to_data(..., output_type=DICT)`:
parallel `conf` and `text` arrays.  Each `conf` entry is modelled as the result
of Python's `int(conf)` — `none` models a `ValueError`/`TypeError` (the entry
is skipped with `continue`). -/
structure TessData where
  conf : List (Option Int)
  text : List String
deriving Repr

/-- Python `str.strip()`'s whitespace set. -/
def pyStripChar (c : Char) : Bool :=
  c = ' ' ∨ c = '\t' ∨ c = '\n' ∨ c = '\r' ∨ c = '\x0b' ∨ c = '\x0c'

/-- Python `str.strip()`: drop leading and trailing whitespace. -/
def pyStrip (s : String) : String :=
  ⟨((s.data.dropWhile pyStripChar).reverse.dropWhile pyStripChar).reverse⟩

/-- The control characters removed by `_clean`'s first regex,
`[\x00-\x08\x0b\x0c\x0e-\x1f]`. -/
def isOCRCtrl (c : Char) : Bool :=
  c.toNat ≤ 8 ∨ c.toNat = 11 ∨ c.toNat = 12 ∨ (14 ≤ c.toNat ∧ c.toNat ≤ 31)

/-- `re.sub(r"[ \t]+", " ", ·)`: collapse every run of spaces/tabs into a
single space. -/
def collapseSpaces : List Char → List Char
  | [] => []
  | c :: cs =>
    if c = ' ' ∨ c = '\t' then
      ' ' :: collapseSpaces (cs.dropWhile (fun d => d = ' ' ∨ d = '\t'))
    else c :: collapseSpaces cs
termination_by l => l.length
decreasing_by
  · exact Nat.lt_succ_of_le (List.Sublist.length_le (List.dropWhile_sublist _))
  · exact Nat.lt_succ_self _

/-- `re.search(r"[a-zA-Z0-9]", ·)`: the line contains an ASCII letter or
digit. -/
def hasAlnum (l : List Char) : Bool := l.any (fun c => c.isAlpha || c.isDigit)

/-- `LocalOCR._clean`: strip control characters, collapse space/tab runs, then
keep only stripped lines containing at least one alphanumeric character. -/
def cleanText (s : String) : String :=
  let s1 : List Char := s.data.filter (fun c => !(isOCRCtrl c))
  let s2 := collapseSpaces s1
  let lines := (String.mk s2).splitOn "\n"
  let cleaned := lines.filterMap (fun line =>
    let l := pyStrip line
    if l ≠ "" ∧ hasAlnum l.data then some l else none)
  String.intercalate "\n" cleaned

/-- `LocalOCR.extract`.  The external world enters through two parameters:
`pytesseract_available` models `pytesseract is None` after the guarded import,
and `call` models the `pytesseract.image_to_data` call on the input image —
`Except.error` when it raises (caught by the `try/except`), `Except.ok` with
the data dict otherwise.  Iterating `enumerate(data["conf"])` while indexing
`data["text"][i]` over the library's parallel arrays is modelled by zipping
the two lists. -/
def LocalOCR.extract (o : LocalOCR) (pytesseract_available : Bool)
    (call : Except Unit TessData) : OCRResult :=
  if !o.enabled || !pytesseract_available then
    { text := "", confidence := 0, word_count := 0 }
  else
    match call with
    | .error _ => { text := "", confidence := 0, word_count := 0 }
    | .ok data =>
      let selected := (data.conf.zip data.text).filterMap (fun ct =>
        match ct.1 with
        | none => none
        | some c =>
          if o.min_confidence ≤ c then
            let word := pyStrip ct.2
            if word ≠ "" then some (word, c) else none
          else none)
      let words := selected.map Prod.fst
      let confidences := selected.map Prod.snd
      let text := cleanText (String.intercalate " " words)
      let avg_conf : ℚ :=
        if confidences ≠ [] then ((confidences.sum : Int) : ℚ) / confidences.length
        else 0
      { text := text, confidence := avg_conf, word_count := words.length }

/-- C9: every failure mode of `LocalOCR.extract` — OCR disabled, the
`pytesseract` library unavailable, or the underlying OCR call raising — is
absorbed and yields the benign empty result `OCRResult("", 0, 0)`; the
function is total, so no exception escapes it. -/
theorem ocr_extract_failure_empty (o : LocalOCR) (avail : Bool)
    (call : Except Unit TessData)
    (h : o.enabled = false ∨ avail = false ∨ call = .error ()) :
    LocalOCR.extract o avail call = { text := "", confidence := 0, word_count := 0 } := by
  rcases h with h | h | h
  · unfold LocalOCR.extract
    rw [h]
    rfl
  · unfold LocalOCR.extract
    rw [h]
    rcases o.enabled <;> rfl
  · subst h
    unfold LocalOCR.extract
    split_ifs <;> rfl

/-- Concrete witness for `ocr_extract_failure_empty`: a disabled OCR instance
returns the empty result even when the library is available and the call would
have produced data. -/
theorem ocr_extract_failure_empty_witness :
    LocalOCR.extract { enabled := false } true
        (.ok { conf := [some 95], text := ["hello"] }) =
      { text := "", confidence := 0, word_count := 0 } :=
  ocr_extract_failure_empty { enabled := false } true
    (.ok { conf := [some 95], text := ["hello"] }) (.inl rfl)

/-! ## Foreground application detection (`sense_client/app_detector.py`) -/

/-- State of `AppDetector`: `_last_app`, initialised to `""`. -/
structure AppDetector where
  last_app : String := ""
deriving DecidableEq, Repr

/-- `AppDetector.detect_change`.  The result of `get_active_app()` — an
external `osascript` subprocess whose failure is caught and converted to
`""` — enters as the parameter `app`.  Returns `(changed, app)` and the
updated detector state. -/
def AppDetector.detect_change (st : AppDetector) (app : String) :
    (Bool × String) × AppDetector :=
  ((decide (app ≠ st.last_app ∧ st.last_app ≠ ""), app), { last_app := app })

/-- C10: on a fresh `AppDetector` the first `detect_change` never reports a
change; `changed` is true exactly when the detected name differs from the
previous one and the previous one was non-empty; after a detection failure
(empty name) the next call never reports a change; and the transition from a
non-empty name to an empty one is reported as a change. -/
theorem detect_change_spec :
    (∀ app : String, ((AppDetector.mk "").detect_change app).1.1 = false) ∧
    (∀ (st : AppDetector) (app : String),
      ((st.detect_change app).1.1 = true ↔ app ≠ st.last_app ∧ st.last_app ≠ "")) ∧
    (∀ (st : AppDetector) (app' : String),
      (((st.detect_change "").2).detect_change app').1.1 = false) ∧
    (∀ st : AppDetector, st.last_app ≠ "" → (st.detect_change "").1.1 = true) := by
  refine ⟨?_, ?_, ?_, ?_⟩
  · intro app; simp [AppDetector.detect_change]
  · intro st app; simp [AppDetector.detect_change]
  · intro st app'; simp [AppDetector.detect_change]
  · intro st h; simp [AppDetector.detect_change, h, Ne.symm h]

/-- Concrete witness for `detect_change_spec`: a detector that last saw
"Safari" reports the transition to a failed (empty) detection as a change. -/
theorem detect_change_spec_witness :
    ((AppDetector.mk "Safari").detect_change "").1.1 = true :=
  detect_change_spec.2.2.2 (AppDetector.mk "Safari") (by decide)

/-! ## The adaptive-cooldown decision gate

`tests/test_stream1_optimizations.py` constructs
`DecisionGate(cooldown_ms=5000, adaptive_cooldown_ms=2000, context_cooldown_ms=0)`
and reads `gate.last_app_change_ts`, but the `DecisionGate` in
`sense_client/gate.py` has none of these: the adaptive variant of the gate is
repository code not present in the source tree, only its tests.  It is
therefore modelled here from the specification (§4.3). -/

/-- Modelled from the spec: configuration of the adaptive-cooldown
`DecisionGate` (§4.3), which is exercised by the repository's tests but absent
from the source tree.  Defaults follow the tests' configuration
(`cooldownMs` 5000, `adaptiveCooldownMs` 2000, `adaptive_window_ms` default
10000). -/
structure AdaptiveGate where
  min_ocr_chars : Int := 10
  major_change_threshold : ℚ := 85 / 100
  cooldown_ms : ℚ := 5000
  adaptive_cooldown_ms : ℚ := 2000
  adaptive_window_ms : ℚ := 10000
  context_cooldown_ms : ℚ := 0
deriving Repr

/-- Modelled from the spec: persistent state of the adaptive gate
(`last_send_ts`, `last_app_change_ts`, `last_ocr_hash`). -/
structure AdaptiveGateState where
  last_send_ts : ℚ := 0
  last_app_change_ts : ℚ := 0
  last_ocr_hash : String := ""
deriving DecidableEq, Repr

/-- Modelled from the spec (§4.3 step 2): the effective cooldown is
`adaptive_cooldown_ms` if `last_app_change_ts > 0` and
`now - last_app_change_ts ≤ adaptive_window_ms`, else `cooldown_ms`. -/
def effectiveCooldown (g : AdaptiveGate) (st : AdaptiveGateState) (now : ℚ) : ℚ :=
  if 0 < st.last_app_change_ts ∧ now - st.last_app_change_ts ≤ g.adaptive_window_ms then
    g.adaptive_cooldown_ms
  else g.cooldown_ms

/-- Modelled from the spec: `classify` of the adaptive gate (§4.3), evaluated
in the spec's priority order — app switch (gated only by
`context_cooldown_ms`), effective-cooldown gate, baseline check, text
sufficiency with dedup, major visual change. -/
def adaptiveClassify (fp : String → String) (g : AdaptiveGate) (st : AdaptiveGateState)
    (now : ℚ) (change : Option ChangeResult) (ocr : OCRResult) (app_changed : Bool) :
    Option SenseEvent × AdaptiveGateState :=
  if app_changed then
    if g.context_cooldown_ms ≤ now - st.last_send_ts then
      (some { type := "context", ts := now },
       { st with last_app_change_ts := now, last_send_ts := now })
    else (none, { st with last_app_change_ts := now })
  else if now - st.last_send_ts < effectiveCooldown g st now then (none, st)
  else
    match change with
    | none => (none, st)
    | some c =>
      if g.min_ocr_chars ≤ (ocr.text.length : Int) then
        if fp ocr.text = st.last_ocr_hash then (none, st)
        else (some { type := "text", ts := now, ocr := ocr.text,
                     meta := { ssim := c.ssim_score } },
              { st with last_ocr_hash := fp ocr.text, last_send_ts := now })
      else if c.ssim_score < g.major_change_threshold then
        (some { type := "visual", ts := now, ocr := ocr.text,
                meta := { ssim := c.ssim_score } },
         { st with last_send_ts := now })
      else (none, st)

/-- A call within the effective cooldown (no app switch) is dropped with the
state untouched. -/
theorem adaptiveClassify_cooldown_drop (fp : String → String) (g : AdaptiveGate)
    (st : AdaptiveGateState) (now : ℚ) (change : Option ChangeResult) (ocr : OCRResult)
    (hlt : now - st.last_send_ts < effectiveCooldown g st now) :
    adaptiveClassify fp g st now change ocr false = (none, st) := by
  unfold adaptiveClassify
  split_ifs with h1 <;>
    first
      | rfl
      | contradiction

/-- A qualifying call (cooldown elapsed, no app switch, change present, text
long enough, fresh fingerprint) emits a `text` event. -/
theorem adaptiveClassify_text_emit (fp : String → String) (g : AdaptiveGate)
    (st : AdaptiveGateState) (now : ℚ) (c : ChangeResult) (ocr : OCRResult)
    (hcool : effectiveCooldown g st now ≤ now - st.last_send_ts)
    (hlen : g.min_ocr_chars ≤ (ocr.text.length : Int))
    (hhash : fp ocr.text ≠ st.last_ocr_hash) :
    (adaptiveClassify fp g st now (some c) ocr false).1 =
      some { type := "text", ts := now, ocr := ocr.text,
             meta := { ssim := c.ssim_score } } := by
  unfold adaptiveClassify
  dsimp only
  split_ifs with h1 h2 <;>
    first
      | rfl
      | contradiction
      | exact absurd h1 Bool.false_ne_true
      | linarith

/-- C1: with no app switch, the adaptive gate's effective cooldown is
`adaptive_cooldown_ms` when `last_app_change_ts > 0` and
`now - last_app_change_ts ≤ adaptive_window_ms`, else `cooldown_ms`; any call
inside the effective cooldown is dropped; and after an app switch emitted at
`T0`, a qualifying trigger at `T0 + x` is emitted iff
`x ≥ adaptive_cooldown_ms` while `x ≤ adaptive_window_ms`, and iff
`x ≥ cooldown_ms` once `x > adaptive_window_ms`. -/
theorem adaptive_effective_cooldown (fp : String → String) (g : AdaptiveGate)
    (st : AdaptiveGateState) (now : ℚ) (change : Option ChangeResult) (ocr : OCRResult) :
    (effectiveCooldown g st now =
      if 0 < st.last_app_change_ts ∧ now - st.last_app_change_ts ≤ g.adaptive_window_ms
      then g.adaptive_cooldown_ms else g.cooldown_ms) ∧
    (now - st.last_send_ts < effectiveCooldown g st now →
      adaptiveClassify fp g st now change ocr false = (none, st)) ∧
    (∀ (T0 x : ℚ) (c : ChangeResult),
      0 < T0 → 0 ≤ x →
      st.last_send_ts = T0 → st.last_app_change_ts = T0 →
      change = some c →
      g.min_ocr_chars ≤ (ocr.text.length : Int) →
      fp ocr.text ≠ st.last_ocr_hash →
      (x ≤ g.adaptive_window_ms →
        ((adaptiveClassify fp g st (T0 + x) change ocr false).1 ≠ none ↔
          g.adaptive_cooldown_ms ≤ x)) ∧
      (g.adaptive_window_ms < x →
        ((adaptiveClassify fp g st (T0 + x) change ocr false).1 ≠ none ↔
          g.cooldown_ms ≤ x))) := by
  refine ⟨rfl, adaptiveClassify_cooldown_drop fp g st now change ocr, ?_⟩
  intro T0 x c hT0 hx hsend happ hch hlen hhash
  subst hch
  have key : ∀ eff, effectiveCooldown g st (T0 + x) = eff →
      ((adaptiveClassify fp g st (T0 + x) (some c) ocr false).1 ≠ none ↔ eff ≤ x) := by
    intro eff heq
    constructor
    · intro hemit
      by_contra hlt
      push_neg at hlt
      exact hemit (congrArg Prod.fst
        (adaptiveClassify_cooldown_drop fp g st (T0 + x) (some c) ocr
          (by rw [heq, hsend]; linarith)))
    · intro hge
      rw [adaptiveClassify_text_emit fp g st (T0 + x) c ocr
        (by rw [heq, hsend]; linarith) hlen hhash]
      simp
  constructor
  · intro hxw
    refine key _ ?_
    unfold effectiveCooldown
    rw [if_pos ⟨by rw [happ]; exact hT0, by rw [happ]; linarith⟩]
  · intro hxw
    refine key _ ?_
    unfold effectiveCooldown
    rw [if_neg ?_]
    rintro ⟨-, h2⟩
    rw [happ] at h2
    linarith

/-- Concrete witness for `adaptive_effective_cooldown`: after an app switch
emitted at `T0 = 1000`, a qualifying text trigger at `T0 + 3000` (within the
10-second adaptive window, past the 2-second adaptive cooldown but well under
the 5-second base cooldown) is emitted. -/
theorem adaptive_effective_cooldown_witness :
    (adaptiveClassify (fun t => t) {}
        { last_send_ts := 1000, last_app_change_ts := 1000 } (1000 + 3000)
        (some { ssim_score := 8/10 })
        { text := "sufficiently long text", confidence := 90, word_count := 3 }
        false).1 ≠ none :=
  ((adaptive_effective_cooldown (fun t => t) {}
      { last_send_ts := 1000, last_app_change_ts := 1000 } 0
      (some { ssim_score := 8/10 })
      { text := "sufficiently long text", confidence := 90, word_count := 3 }).2.2
    1000 3000 { ssim_score := 8/10 } (by norm_num) (by norm_num) rfl rfl rfl
    (by decide) (by decide)).1 (by norm_num) |>.mpr (by norm_num)

/-- C2: on an app switch the adaptive gate always records
`last_app_change_ts = now`; it emits a `context` event (stamping
`last_send_ts = now`) iff `now - last_send_ts ≥ context_cooldown_ms`, dropping
(and leaving `last_send_ts` unchanged) otherwise; with `context_cooldown_ms = 0`
and a monotone clock, the context event is always emitted, regardless of
`cooldown_ms` and of how recently the previous event was sent. -/
theorem adaptive_context_event (fp : String → String) (g : AdaptiveGate)
    (st : AdaptiveGateState) (now : ℚ) (change : Option ChangeResult) (ocr : OCRResult) :
    ((adaptiveClassify fp g st now change ocr true).2.last_app_change_ts = now) ∧
    (g.context_cooldown_ms ≤ now - st.last_send_ts →
      (adaptiveClassify fp g st now change ocr true).1 =
          some { type := "context", ts := now } ∧
        (adaptiveClassify fp g st now change ocr true).2.last_send_ts = now) ∧
    (now - st.last_send_ts < g.context_cooldown_ms →
      (adaptiveClassify fp g st now change ocr true).1 = none ∧
        (adaptiveClassify fp g st now change ocr true).2.last_send_ts = st.last_send_ts) ∧
    (g.context_cooldown_ms = 0 → st.last_send_ts ≤ now →
      (adaptiveClassify fp g st now change ocr true).1 =
        some { type := "context", ts := now }) := by
  have hchar : adaptiveClassify fp g st now change ocr true =
      if g.context_cooldown_ms ≤ now - st.last_send_ts then
        (some { type := "context", ts := now },
         { st with last_app_change_ts := now, last_send_ts := now })
      else (none, { st with last_app_change_ts := now }) := rfl
  rw [hchar]
  by_cases hc : g.context_cooldown_ms ≤ now - st.last_send_ts
  · rw [if_pos hc]
    exact ⟨rfl, fun _ => ⟨rfl, rfl⟩, fun hlt => absurd hc (not_le.mpr hlt), fun _ _ => rfl⟩
  · rw [if_neg hc]
    refine ⟨rfl, fun hge => absurd hge hc, fun _ => ⟨rfl, rfl⟩, fun h0 hle => ?_⟩
    exfalso
    apply hc
    rw [h0]
    linarith

/-- Concrete witness for `adaptive_context_event`: with the default
`context_cooldown_ms = 0`, an app switch 100 ms after the previous send (well
inside the 5-second general cooldown) still emits a `context` event. -/
theorem adaptive_context_event_witness :
    (adaptiveClassify (fun t => t) {} { last_send_ts := 500 } 600 none
        { text := "", confidence := 0, word_count := 0 } true).1 =
      some { type := "context", ts := 600 } :=
  (adaptive_context_event (fun t => t) {} { last_send_ts := 500 } 600 none
      { text := "", confidence := 0, word_count := 0 }).2.2.2 rfl (by norm_num)

end SenseClient
